import Mathlib

/-!
Verification of the Pacman RL environment wrappers
(`mdrc_pacbot_rl/pacman/gym.py`) against their specification.

The Python module wraps an external game simulation.  The code owned by the
repository - movement, action masking, reward arithmetic, observation
channel construction - is embedded below as pure Lean functions:

* grid coordinates are integers (Python ints), the grid itself a total
  function `ℤ → ℤ → ℤ` from coordinates to cell-type codes;
* Python floats are `PyFloat := Option ℚ`, with `none` standing for NaN
  (all finite values arising here are ratios of integers, hence rational);
* a Python function that can raise returns an `Option`;
* the external simulation's single-tick advance is an abstract state
  transformer `f : S → S` together with a `play : S → Bool` flag.

Constants that live in `mdrc_pacbot_rl/pacman/variables.py` (not part of
the sources under verification) are modelled from the specification and
are marked as such.
-/

/-- Grid width, from `GRID_WIDTH = 28`. -/
def GRID_WIDTH : ℤ := 28

/-- Grid height, from `GRID_HEIGHT = 31`. -/
def GRID_HEIGHT : ℤ := 31

/-- Modelled from the spec: `variables.ghost_score`, the fixed "ghost" score
constant used to normalize rewards.  `variables.py` is not among the sources;
the commented-out line 512 of `gym.py` uses the literal `200` where line 624
uses `math.log(variables.ghost_score)`, and 200 is the classic Pacman ghost
score, so the constant is modelled as 200. -/
def ghost_score : ℚ := 200

/-- Modelled from the spec: `variables.starting_lives`, the starting life
count.  `variables.py` is not among the sources; line 391 of `gym.py`
compares `self.game_state.lives < 3` where line 627 compares against
`variables.starting_lives`, so the constant is modelled as 3. -/
def starting_lives : ℤ := 3

/-- Target cell computed by the `if action == _:` chain of
`BasePacmanGym.move_one_cell` (gym.py lines 128-137).  In Python the five
`if` statements assign the local `new_pos`; when no branch fires (action
outside 0..4) `new_pos` stays unbound and the subsequent read raises
`UnboundLocalError`, modelled as `none`. -/
def moveTarget (pos : ℤ × ℤ) (action : ℕ) : Option (ℤ × ℤ) :=
  if action = 0 then some (pos.1, pos.2)
  else if action = 1 then some (pos.1, min (pos.2 + 1) (GRID_HEIGHT - 1))
  else if action = 2 then some (pos.1, max (pos.2 - 1) 0)
  else if action = 3 then some (max (pos.1 - 1) 0, pos.2)
  else if action = 4 then some (min (pos.1 + 1) (GRID_WIDTH - 1), pos.2)
  else none

/-- `BasePacmanGym.move_one_cell` (gym.py lines 115-139): compute the target
cell, then update Pacman's position unless the target's grid code is 1
(wall) or 5 (ghost door).  Returns Pacman's resulting position, or `none`
when the Python code would raise `UnboundLocalError`. -/
def moveOneCell (grid : ℤ → ℤ → ℤ) (pos : ℤ × ℤ) (action : ℕ) : Option (ℤ × ℤ) :=
  match moveTarget pos action with
  | none => none
  | some np => if grid np.1 np.2 = 1 ∨ grid np.1 np.2 = 5 then some pos else some np

/-- Condition of `mask[1] = 1` in `BasePacmanGym.action_mask` (gym.py lines
147-151): Pacman on the last row, or the cell below is a wall or door. -/
def downBlocked (grid : ℤ → ℤ → ℤ) (pos : ℤ × ℤ) : Prop :=
  pos.2 = GRID_HEIGHT - 1 ∨ grid pos.1 (pos.2 + 1) = 1 ∨ grid pos.1 (pos.2 + 1) = 5

/-- Condition of `mask[2] = 1` (gym.py line 152). -/
def upBlocked (grid : ℤ → ℤ → ℤ) (pos : ℤ × ℤ) : Prop :=
  pos.2 = 0 ∨ grid pos.1 (pos.2 - 1) = 1 ∨ grid pos.1 (pos.2 - 1) = 5

/-- Condition of `mask[3] = 1` (gym.py line 154). -/
def leftBlocked (grid : ℤ → ℤ → ℤ) (pos : ℤ × ℤ) : Prop :=
  pos.1 = 0 ∨ grid (pos.1 - 1) pos.2 = 1 ∨ grid (pos.1 - 1) pos.2 = 5

/-- Condition of `mask[4] = 1` (gym.py lines 156-160). -/
def rightBlocked (grid : ℤ → ℤ → ℤ) (pos : ℤ × ℤ) : Prop :=
  pos.1 = GRID_WIDTH - 1 ∨ grid (pos.1 + 1) pos.2 = 1 ∨ grid (pos.1 + 1) pos.2 = 5

instance (grid : ℤ → ℤ → ℤ) (pos : ℤ × ℤ) : Decidable (downBlocked grid pos) := by
  unfold downBlocked; infer_instance

instance (grid : ℤ → ℤ → ℤ) (pos : ℤ × ℤ) : Decidable (upBlocked grid pos) := by
  unfold upBlocked; infer_instance

instance (grid : ℤ → ℤ → ℤ) (pos : ℤ × ℤ) : Decidable (leftBlocked grid pos) := by
  unfold leftBlocked; infer_instance

instance (grid : ℤ → ℤ → ℤ) (pos : ℤ × ℤ) : Decidable (rightBlocked grid pos) := by
  unfold rightBlocked; infer_instance

/-- One `mask[i] = 1` assignment guarded by its condition. -/
def setIf (m : List ℕ) (c : Prop) [Decidable c] (i : ℕ) : List ℕ :=
  if c then m.set i 1 else m

/-- `BasePacmanGym.action_mask` (gym.py lines 141-161): start from
`[0, 0, 0, 0, 0]` and set each directional entry to 1 when its blocking
condition holds. -/
def actionMask (grid : ℤ → ℤ → ℤ) (pos : ℤ × ℤ) : List ℕ :=
  setIf
    (setIf
      (setIf
        (setIf [0, 0, 0, 0, 0] (downBlocked grid pos) 1)
        (upBlocked grid pos) 2)
      (leftBlocked grid pos) 3)
    (rightBlocked grid pos) 4

/-- Formalisation of the spec's wording: a position is inside the fixed
28 x 31 grid. -/
def inBounds (q : ℤ × ℤ) : Prop :=
  0 ≤ q.1 ∧ q.1 ≤ GRID_WIDTH - 1 ∧ 0 ≤ q.2 ∧ q.2 ≤ GRID_HEIGHT - 1

instance (q : ℤ × ℤ) : Decidable (inBounds q) := by
  unfold inBounds; infer_instance

/-- Formalisation of the spec's wording: a directional action is blocked
iff the adjacent cell in that direction is off-grid or has cell type wall
(1) or ghost-door (5). -/
def blockedSpec (grid : ℤ → ℤ → ℤ) (q : ℤ × ℤ) : Prop :=
  ¬ inBounds q ∨ grid q.1 q.2 = 1 ∨ grid q.1 q.2 = 5

instance (grid : ℤ → ℤ → ℤ) (q : ℤ × ℤ) : Decidable (blockedSpec grid q) := by
  unfold blockedSpec; infer_instance

/-- Formalisation of the spec's wording for `move_one_cell`'s target: action
codes {0..4} map to {no-op, +y, -y, -x, +x} with the coordinate clamped to
grid bounds. -/
def specTarget (pos : ℤ × ℤ) (action : ℕ) : ℤ × ℤ :=
  if action = 0 then pos
  else if action = 1 then (pos.1, min (pos.2 + 1) (GRID_HEIGHT - 1))
  else if action = 2 then (pos.1, max (pos.2 - 1) 0)
  else if action = 3 then (max (pos.1 - 1) 0, pos.2)
  else (min (pos.1 + 1) (GRID_WIDTH - 1), pos.2)

/-- Python float: `none` is NaN, `some q` a finite value (every finite value
arising in the reward arithmetic is a ratio of integers, hence rational). -/
abbrev PyFloat := Option ℚ

/-- The value `float("Nan")`. -/
def pyNan : PyFloat := none

/-- IEEE-754 `==` on Python floats: NaN compares unequal to everything,
including itself. -/
def pyEq : PyFloat → PyFloat → Bool
  | some a, some b => a == b
  | _, _ => false

/-- The guard `if reward == float("Nan"): reward = 0` appearing in
`NaivePacmanGym.step` (gym.py lines 267-268), `SemanticPacmanGym.step`
(lines 516-517) and `SelfAttentionPacmanGym.step` (lines 629-630). -/
def nanGuard (r : PyFloat) : PyFloat :=
  if pyEq r pyNan then some 0 else r

/-- Division of a Python float by a rational constant; NaN propagates.
(Python float division by zero raises; every divisor used below is the
nonzero constant `ghost_score` or 200.) -/
def pyDiv (a : PyFloat) (c : ℚ) : PyFloat := a.map fun q => q / c

/-- Subtraction of a rational constant from a Python float; NaN propagates. -/
def pySubC (a : PyFloat) (c : ℚ) : PyFloat := a.map fun q => q - c

/-- Reward computation of `NaivePacmanGym.step` (gym.py lines 261-269):
`reward = (score - last_score) / ghost_score`; zero when `done`
(`done = not play`); then the NaN guard. -/
def naiveStepReward (lastScore score : ℤ) (play : Bool) : PyFloat :=
  let done := !play
  let reward := pyDiv (some ((score : ℚ) - (lastScore : ℚ))) ghost_score
  let reward := if done then some 0 else reward
  nanGuard reward

/-- Reward computation of `SemanticPacmanGym.step` (gym.py lines 509-518):
`reward = score - last_score`; `-100` when `done`; the NaN guard; then
`reward /= 200`. -/
def semanticPacmanStepReward (lastScore score : ℤ) (play : Bool) : PyFloat :=
  let done := !play
  let reward : PyFloat := some ((score : ℚ) - (lastScore : ℚ))
  let reward := if done then some (-100) else reward
  let reward := nanGuard reward
  pyDiv reward 200

/-- The tick multiplier of `SemanticChannelPacmanGym.step` (gym.py line 365):
`tick_mult = 1 if self.last_action == action or self.last_action == 0 else 2`. -/
def tickMult (lastAction action : ℕ) : ℕ :=
  if lastAction = action ∨ lastAction = 0 then 1 else 2

/-- The tick loop of `SemanticChannelPacmanGym.step` (gym.py lines 366-369):
`for _ in range(n): self.game_state.next_step(); if not play: break`, over an
abstract simulation `f` with lifecycle flag `play`.  Returns the final state
and the number of `next_step` calls executed. -/
def runTicks {S : Type} (f : S → S) (play : S → Bool) : ℕ → S → S × ℕ
  | 0, s => (s, 0)
  | Nat.succ n, s =>
    let t := f s
    if play t then
      let r := runTicks f play n t
      (r.1, r.2 + 1)
    else (t, 1)

/-- Reward computation of `SemanticChannelPacmanGym.step` (gym.py lines
385-393): `reward = (score - last_score) / ghost_score`; `reward -= 0.05`
when the tick count was doubled; zero when `done and lives < 3`. -/
def semanticChannelStepReward (lastScore score : ℤ) (lastAction action : ℕ)
    (play : Bool) (lives : ℤ) : PyFloat :=
  let done := !play
  let reward := pyDiv (some ((score : ℚ) - (lastScore : ℚ))) ghost_score
  let reward := if tickMult lastAction action = 2 then pySubC reward (5 / 100) else reward
  let reward := if done = true ∧ lives < 3 then some 0 else reward
  reward

/-- Reward computation of `SelfAttentionPacmanGym.step` (gym.py lines
623-630).  The log-normalized base value
`math.log(1 + score - last_score) / math.log(variables.ghost_score)` is
passed in as `logReward` (the real-valued logarithm has no computable
rational embedding); the override and the NaN guard act on it exactly as in
the source: `reward = -1.0` when `lives < starting_lives`, then the NaN
guard. -/
def selfAttentionStepReward (logReward : PyFloat) (lives : ℤ) : PyFloat :=
  let reward := logReward
  let reward := if lives < starting_lives then some (-1) else reward
  nanGuard reward

/-- One cell assignment `m[p] = v` on a grid-shaped channel. -/
def updateCell (m : ℤ × ℤ → ℚ) (p : ℤ × ℤ) (v : ℚ) : ℤ × ℤ → ℚ :=
  fun q => if q = p then v else m q

/-- Entity channel of `NaivePacmanGym.create_obs` (gym.py lines 280-291):
entities start at zero; the enumerated positions
`[pacbot, red, blue, pink, orange]` are traversed in reversed order; each
write stores `-1` when frightened and the index is positive, otherwise
`index + 1`. -/
def naiveEntities (fright : Bool) (pacPos red blue pink orange : ℤ × ℤ) :
    ℤ × ℤ → ℚ :=
  let entityPositions := [pacPos, red, blue, pink, orange]
  (entityPositions.enum.reverse).foldl
    (fun m ip =>
      updateCell m ip.2 (if fright && decide (0 < ip.1) then -1 else (ip.1 : ℚ) + 1))
    (fun _ => 0)

/-- Decayed-trail update in `SelfAttentionPacmanGym.create_obs` (gym.py
lines 662-676): `self.pacman *= 0.5` then `self.pacman[x][y] = 1` (and the
same pattern for each `self.entities` channel).  The map is persistent
per-environment state: `create_obs` both emits it in the observation and
stores it back. -/
def decayWrite (m : ℤ × ℤ → ℚ) (cur : ℤ × ℤ) : ℤ × ℤ → ℚ :=
  fun q => if q = cur then 1 else m q / 2

/-- Helper: the NaN guard never changes its argument, because the IEEE
comparison on its condition is false for every value. -/
lemma nanGuard_eq_self (r : PyFloat) : nanGuard r = r := by
  cases r <;> rfl

/-- Helper: when the lifecycle flag stays true, the tick loop performs
exactly its configured number of simulation advances. -/
lemma runTicks_count {S : Type} (f : S → S) (play : S → Bool)
    (hp : ∀ t, play t = true) : ∀ (n : ℕ) (s : S), (runTicks f play n s).2 = n := by
  intro n
  induction n with
  | zero => intro s; rfl
  | succ k ih =>
    intro s
    simp only [runTicks, hp (f s), if_true]
    simp [ih (f s)]

/-- Helper: the four guarded assignments of `action_mask` build the
5-element indicator list of their conditions. -/
lemma setIf_chain (c1 c2 c3 c4 : Prop)
    [Decidable c1] [Decidable c2] [Decidable c3] [Decidable c4] :
    setIf (setIf (setIf (setIf [0, 0, 0, 0, 0] c1 1) c2 2) c3 3) c4 4 =
      [0, if c1 then 1 else 0, if c2 then 1 else 0,
       if c3 then 1 else 0, if c4 then 1 else 0] := by
  unfold setIf
  split_ifs <;> rfl

/-- Claim C1 (code_bug): the spec says any non-finite reward is coerced to
zero before `step()` returns, but the guard `if reward == float("Nan")` is
dead code: under IEEE semantics `x == float("Nan")` is false for every
float, NaN included, so a NaN reward passes through unchanged.  The first
two conjuncts evaluate the guard at the failing input NaN; the third shows
the guard is the identity everywhere; the last two show the rewards of the
two cited variants are nonetheless always finite, being ratios of integer
score deltas. -/
theorem nan_guard_dead_code :
    nanGuard pyNan = pyNan ∧ pyNan ≠ some 0 ∧
    (∀ r : PyFloat, nanGuard r = r) ∧
    (∀ (lastScore score : ℤ) (play : Bool),
      ∃ q : ℚ, naiveStepReward lastScore score play = some q) ∧
    (∀ (lastScore score : ℤ) (play : Bool),
      ∃ q : ℚ, semanticPacmanStepReward lastScore score play = some q) := by
  refine ⟨rfl, by decide, nanGuard_eq_self, ?_, ?_⟩
  · intro lastScore score play
    cases play <;> exact ⟨_, rfl⟩
  · intro lastScore score play
    cases play <;> exact ⟨_, rfl⟩

/-- Claim C4 counterexample: the claim says an action code outside {0..4}
leaves the position unchanged with no exception raised; in fact no branch
of `move_one_cell` assigns the target, and reading it raises
`UnboundLocalError` (modelled as `none`): at action 5 the call does not
return the unchanged position. -/
theorem move_invalid_action_counterexample :
    moveOneCell (fun _ _ => (0 : ℤ)) ((1 : ℤ), (1 : ℤ)) 5 ≠ some ((1 : ℤ), (1 : ℤ)) ∧
    moveOneCell (fun _ _ => (0 : ℤ)) ((1 : ℤ), (1 : ℤ)) 5 = none := by
  constructor
  · decide
  · decide

/-- Claim C4 amended: for every action code outside {0,1,2,3,4},
`move_one_cell` raises `UnboundLocalError` before any movement is applied
(modelled as `none`); Pacman's stored position is never updated, but the
call is an error, not a silent no-op. -/
theorem move_invalid_action_amended (grid : ℤ → ℤ → ℤ) (pos : ℤ × ℤ)
    (action : ℕ) (ha : 4 < action) :
    moveOneCell grid pos action = none := by
  have ht : moveTarget pos action = none := by
    unfold moveTarget
    split_ifs <;> first | rfl | omega
  unfold moveOneCell
  rw [ht]

/-- Witness for C4's amended theorem at the concrete action code 7. -/
theorem move_invalid_action_amended_witness :
    moveOneCell (fun _ _ => (0 : ℤ)) ((3 : ℤ), (3 : ℤ)) 7 = none :=
  move_invalid_action_amended (fun _ _ => (0 : ℤ)) ((3 : ℤ), (3 : ℤ)) 7 (by decide)

/-- Claim C5: Variant A's reward is the raw score delta divided by the
ghost score constant, zero on episode end, and equals 1 when the score
rose by exactly the ghost score constant while play continues. -/
theorem naive_step_reward_spec (lastScore score : ℤ) :
    naiveStepReward lastScore score false = some 0 ∧
    naiveStepReward lastScore score true =
      some (((score : ℚ) - (lastScore : ℚ)) / ghost_score) ∧
    (score = lastScore + 200 → naiveStepReward lastScore score true = some 1) := by
  have hform : ∀ s : ℤ, naiveStepReward lastScore s true =
      some (((s : ℚ) - (lastScore : ℚ)) / ghost_score) := by
    intro s
    simp [naiveStepReward, pyDiv, nanGuard_eq_self]
  refine ⟨rfl, hform score, ?_⟩
  intro h
  subst h
  have hnum : (((lastScore + 200 : ℤ) : ℚ) - (lastScore : ℚ)) = 200 := by
    push_cast
    ring
  rw [hform, hnum]
  norm_num [ghost_score]

/-- Witness for C5 at a concrete score sequence: score rises from 0 to 200
(one ghost eaten) while the game keeps playing, so the reward is 1; and a
terminal step returns 0. -/
theorem naive_step_reward_spec_witness :
    naiveStepReward 0 200 true = some 1 ∧ naiveStepReward 0 200 false = some 0 := by
  have h := naive_step_reward_spec 0 200
  exact ⟨h.2.2 rfl, h.1⟩

/-- Claim C7: Variant B zeroes the reward on a terminal step with fewer
lives than the starting life count, regardless of the score delta and of
any direction-change penalty. -/
theorem semantic_terminal_zero (lastScore score : ℤ) (lastAction action : ℕ)
    (lives : ℤ) (hl : lives < starting_lives) :
    semanticChannelStepReward lastScore score lastAction action false lives = some 0 := by
  have hl3 : lives < 3 := hl
  simp [semanticChannelStepReward, hl3]

/-- Witness for C7: episode ends with 2 of 3 lives after a 500-point score
delta and a direction change (penalty would apply); the reward is 0. -/
theorem semantic_terminal_zero_witness :
    semanticChannelStepReward 0 500 1 2 false 2 = some 0 :=
  semantic_terminal_zero 0 500 1 2 2 (by decide)

/-- Claim C8 counterexample: the claim says the reward is forced to -1.0
only on a step in which the life count decreased; here lives are 2 both
before and after the step (the loss happened on an earlier step, and
2 < 2 is false), the base log reward is 0, yet `step()` still returns
-1.0 because the code compares the current life count to the starting
life count. -/
theorem self_attention_life_loss_counterexample :
    selfAttentionStepReward (some 0) 2 = some (-1) ∧ ¬ ((2 : ℤ) < 2) := by
  constructor
  · decide
  · decide

/-- Claim C8 amended: Variant D computes the log-normalized reward and then
forces it to -1.0 whenever the current life count is below the starting
life count - that is, on every step from the first life loss onward, not
only the step in which the life was lost; otherwise the log-normalized
value is returned unchanged (the NaN guard is the identity). -/
theorem self_attention_life_loss_amended (logReward : PyFloat) (lives : ℤ) :
    (lives < starting_lives → selfAttentionStepReward logReward lives = some (-1)) ∧
    (starting_lives ≤ lives → selfAttentionStepReward logReward lives = logReward) := by
  constructor
  · intro h
    simp [selfAttentionStepReward, h, nanGuard_eq_self]
  · intro h
    have hn : ¬ lives < starting_lives := not_lt.mpr h
    simp [selfAttentionStepReward, hn, nanGuard_eq_self]

/-- Witness for C8's amended theorem: with 2 lives the reward is forced to
-1 whatever the base value; with all 3 lives the base value 1/2 is
returned unchanged. -/
theorem self_attention_life_loss_amended_witness :
    selfAttentionStepReward (some (1 / 2)) 2 = some (-1) ∧
    selfAttentionStepReward (some (1 / 2)) 3 = some (1 / 2) := by
  refine ⟨(self_attention_life_loss_amended (some (1 / 2)) 2).1 (by decide),
    (self_attention_life_loss_amended (some (1 / 2)) 3).2 (by decide)⟩

/-- Claim C9 counterexample: the claim says every variant's `create_obs`
persists nothing, so two successive calls with the GameState unchanged
return identical observations.  Variant D's trail channel refutes it:
starting from a trail map holding 1 at the old cell (1,1) with Pacman now
at (2,1), the first call emits 1/2 at (1,1) and the second call emits 1/4
there. -/
theorem create_obs_not_pure_counterexample :
    decayWrite (decayWrite
        (fun q => if q = ((1 : ℤ), (1 : ℤ)) then (1 : ℚ) else 0) (2, 1)) (2, 1) (1, 1) ≠
      decayWrite (fun q => if q = ((1 : ℤ), (1 : ℤ)) then (1 : ℚ) else 0) (2, 1) (1, 1) := by
  simp only [decayWrite, Prod.mk.injEq]
  norm_num

/-- Claim C9 amended: variants A, B and C build their observations purely
from the current GameState, but Variant D's `create_obs` mutates its
persistent trail maps (`self.pacman`, `self.entities`): each call halves
every old trail value before marking the current cell, so the stored map
changes and a second call with the GameState unchanged differs from the
first at every cell holding a nonzero trail away from the entity's current
position. -/
theorem create_obs_decay_amended (m : ℤ × ℤ → ℚ) (c q : ℤ × ℤ)
    (hq : q ≠ c) (hm : m q ≠ 0) :
    decayWrite m c q ≠ m q ∧
    decayWrite (decayWrite m c) c q ≠ decayWrite m c q := by
  simp only [decayWrite, if_neg hq]
  constructor
  · intro hcontra
    apply hm
    linarith
  · intro hcontra
    apply hm
    linarith

/-- Witness for C9's amended theorem at the concrete trail map of the
counterexample. -/
theorem create_obs_decay_amended_witness :
    decayWrite (fun q => if q = ((1 : ℤ), (1 : ℤ)) then (1 : ℚ) else 0) (2, 1) (1, 1) ≠
      (fun q : ℤ × ℤ => if q = ((1 : ℤ), (1 : ℤ)) then (1 : ℚ) else 0) (1, 1) := by
  exact (create_obs_decay_amended
    (fun q => if q = ((1 : ℤ), (1 : ℤ)) then (1 : ℚ) else 0) (2, 1) (1, 1)
    (by decide) (by norm_num)).1

/-- Claim C2: for every action code in {0..4} and every in-bounds position,
`move_one_cell` maps the action to the clamped target cell of the spec's
mapping, moves there unless that cell's grid code is wall (1) or ghost-door
(5) - in which case the position is unchanged - and the resulting position
is always inside grid bounds. -/
theorem move_one_cell_spec (grid : ℤ → ℤ → ℤ) (pos : ℤ × ℤ) (action : ℕ)
    (ha : action ≤ 4) (hp : inBounds pos) :
    moveOneCell grid pos action =
      some (if grid (specTarget pos action).1 (specTarget pos action).2 = 1 ∨
               grid (specTarget pos action).1 (specTarget pos action).2 = 5
            then pos else specTarget pos action) ∧
    ∀ q, moveOneCell grid pos action = some q → inBounds q := by
  have htarget : moveTarget pos action = some (specTarget pos action) := by
    unfold moveTarget specTarget
    interval_cases action <;> simp
  have hred : moveOneCell grid pos action =
      if grid (specTarget pos action).1 (specTarget pos action).2 = 1 ∨
         grid (specTarget pos action).1 (specTarget pos action).2 = 5
      then some pos else some (specTarget pos action) := by
    unfold moveOneCell
    rw [htarget]
  have hb : inBounds (specTarget pos action) := by
    unfold inBounds GRID_WIDTH GRID_HEIGHT at hp ⊢
    unfold specTarget GRID_WIDTH GRID_HEIGHT
    interval_cases action <;> simp <;> omega
  constructor
  · rw [hred]
    split_ifs <;> rfl
  · intro q hq
    rw [hred] at hq
    split_ifs at hq
    · injection hq with hq
      subst hq
      exact hp
    · injection hq with hq
      subst hq
      exact hb

/-- Witness for C2 on an all-empty grid at the corner (0,0): action 1 (down,
+y) moves Pacman to (0,1), which is in bounds. -/
theorem move_one_cell_spec_witness :
    moveOneCell (fun _ _ => (0 : ℤ)) ((0 : ℤ), (0 : ℤ)) 1 = some ((0 : ℤ), (1 : ℤ)) ∧
    inBounds ((0 : ℤ), (1 : ℤ)) := by
  have h := move_one_cell_spec (fun _ _ => (0 : ℤ)) ((0 : ℤ), (0 : ℤ)) 1
    (by decide) (by decide)
  have h1 := h.1
  norm_num [specTarget, GRID_HEIGHT] at h1
  exact ⟨h1, by decide⟩

/-- Claim C3: for every in-bounds position, `action_mask` returns the
5-element indicator whose entry 0 is 0 and whose entry for each directional
action is 1 exactly when the adjacent cell in that direction is off-grid or
a wall/ghost-door cell. -/
theorem action_mask_spec (grid : ℤ → ℤ → ℤ) (pos : ℤ × ℤ) (hp : inBounds pos) :
    actionMask grid pos =
      [0,
       if blockedSpec grid (pos.1, pos.2 + 1) then 1 else 0,
       if blockedSpec grid (pos.1, pos.2 - 1) then 1 else 0,
       if blockedSpec grid (pos.1 - 1, pos.2) then 1 else 0,
       if blockedSpec grid (pos.1 + 1, pos.2) then 1 else 0] := by
  unfold inBounds GRID_WIDTH GRID_HEIGHT at hp
  have b1 : pos.2 = GRID_HEIGHT - 1 ↔ ¬ inBounds (pos.1, pos.2 + 1) := by
    unfold inBounds GRID_WIDTH GRID_HEIGHT
    dsimp only
    omega
  have b2 : pos.2 = 0 ↔ ¬ inBounds (pos.1, pos.2 - 1) := by
    unfold inBounds GRID_WIDTH GRID_HEIGHT
    dsimp only
    omega
  have b3 : pos.1 = 0 ↔ ¬ inBounds (pos.1 - 1, pos.2) := by
    unfold inBounds GRID_WIDTH GRID_HEIGHT
    dsimp only
    omega
  have b4 : pos.1 = GRID_WIDTH - 1 ↔ ¬ inBounds (pos.1 + 1, pos.2) := by
    unfold inBounds GRID_WIDTH GRID_HEIGHT
    dsimp only
    omega
  have e1 : downBlocked grid pos ↔ blockedSpec grid (pos.1, pos.2 + 1) := by
    unfold downBlocked blockedSpec
    exact or_congr b1 Iff.rfl
  have e2 : upBlocked grid pos ↔ blockedSpec grid (pos.1, pos.2 - 1) := by
    unfold upBlocked blockedSpec
    exact or_congr b2 Iff.rfl
  have e3 : leftBlocked grid pos ↔ blockedSpec grid (pos.1 - 1, pos.2) := by
    unfold leftBlocked blockedSpec
    exact or_congr b3 Iff.rfl
  have e4 : rightBlocked grid pos ↔ blockedSpec grid (pos.1 + 1, pos.2) := by
    unfold rightBlocked blockedSpec
    exact or_congr b4 Iff.rfl
  unfold actionMask
  rw [setIf_chain]
  simp only [e1, e2, e3, e4]

/-- Witness for C3 on an all-empty grid at the corner (0,0): moving up and
left is blocked by the boundary (entries 2 and 3), moving down and right is
free, and the stay action is unmasked. -/
theorem action_mask_spec_witness :
    actionMask (fun _ _ => (0 : ℤ)) ((0 : ℤ), (0 : ℤ)) = [0, 0, 1, 1, 0] := by
  rw [action_mask_spec (fun _ _ => (0 : ℤ)) ((0 : ℤ), (0 : ℤ)) (by decide)]
  norm_num [blockedSpec, inBounds, GRID_WIDTH, GRID_HEIGHT]

/-- Claim C6 counterexample: the claim says the tick count doubles (and the
0.05 penalty applies) precisely when the action differs from the previous
step's action.  When the previous action is 0 the code never doubles: with
previous action 0 and current action 1 the actions differ, yet the
multiplier is 1, not 2, and no penalty is subtracted (reward stays 0 for a
zero score delta). -/
theorem tick_double_counterexample :
    ¬ (tickMult 0 1 = 2 ↔ (1 : ℕ) ≠ 0) ∧
    semanticChannelStepReward 0 0 0 1 true 3 = some 0 := by
  constructor
  · decide
  · simp [semanticChannelStepReward, tickMult, pyDiv]

/-- Claim C6 amended: the tick count is doubled - and the 0.05 penalty
subtracted - exactly when the action differs from the previous step's
action AND the previous action is not 0 (stay); the tick loop then performs
exactly `ticks_per_step * tick_mult` simulation advances provided the
simulation keeps reporting play (it stops early otherwise). -/
theorem tick_double_amended (last a n : ℕ) (lastScore score : ℤ) (lives : ℤ) :
    (tickMult last a = 2 ↔ (a ≠ last ∧ last ≠ 0)) ∧
    (∀ (S : Type) (f : S → S) (play : S → Bool) (s : S),
      (∀ t, play t = true) →
      (runTicks f play (n * tickMult last a) s).2 = n * tickMult last a) ∧
    (tickMult last a = 2 →
      semanticChannelStepReward lastScore score last a true lives =
        some (((score : ℚ) - (lastScore : ℚ)) / ghost_score - 5 / 100)) ∧
    (tickMult last a = 1 →
      semanticChannelStepReward lastScore score last a true lives =
        some (((score : ℚ) - (lastScore : ℚ)) / ghost_score)) := by
  refine ⟨?_, ?_, ?_, ?_⟩
  · unfold tickMult
    split_ifs with h
    · constructor
      · intro hc
        exact absurd hc (by decide)
      · rintro ⟨hal, hl0⟩
        rcases h with h | h
        · exact absurd h.symm hal
        · exact absurd h hl0
    · constructor
      · intro _
        push_neg at h
        exact ⟨fun hc => h.1 hc.symm, h.2⟩
      · intro _
        rfl
  · intro S f play s hpl
    exact runTicks_count f play hpl (n * tickMult last a) s
  · intro h2
    simp [semanticChannelStepReward, h2, pyDiv, pySubC]
  · intro h1
    simp [semanticChannelStepReward, h1, pyDiv]

/-- Witness for C6's amended theorem: previous action 1, current action 2 -
a genuine direction change - doubles the ticks (8 becomes 16 advances of an
always-playing simulation) and subtracts 0.05 from the score reward
(200 points gives 1.0 - 0.05 = 19/20). -/
theorem tick_double_amended_witness :
    semanticChannelStepReward 0 200 1 2 true 3 = some (19 / 20) ∧
    (runTicks (fun u : Unit => u) (fun _ => true) (8 * tickMult 1 2) ()).2 =
      8 * tickMult 1 2 := by
  have h := tick_double_amended 1 2 8 0 200 3
  constructor
  · have h2 := h.2.2.1 (by decide)
    rw [h2]
    norm_num [ghost_score]
  · exact h.2.1 Unit (fun u => u) (fun _ => true) () (fun _ => rfl)

/-- Claim C10: in Variant A's entity channel the entry at Pacman's cell is
always 1: the (index, position) pairs are written in reversed order, so
Pacman's code 1 (index 0, not subject to the frightened -1) is written
last and overwrites any ghost code sharing the cell. -/
theorem naive_entities_pacman_cell (fright : Bool)
    (pacPos red blue pink orange : ℤ × ℤ) :
    naiveEntities fright pacPos red blue pink orange pacPos = 1 := by
  simp [naiveEntities, updateCell, List.enum, List.enumFrom]
